import Mathlib

/-
Verification of the Budget Calculator core of the Smart Budgeting App
(src/app.py). The app reads non-negative numeric inputs from widgets,
computes total spend, remaining balance, a time-scaled equivalent and a
status classification, appends snapshots to a session history log,
serializes the log to CSV, and optionally calls a generative-language
service for advice text. Amounts are modelled as exact rationals; the
widget inputs are integers, for which the source's arithmetic agrees
with the exact model.
-/

namespace BudgetApp

/-- Budgeting mode selected by the radio widget (src/app.py line 46):
Monthly Budgeting or Semester Budgeting. -/
inductive Mode where
  | Monthly
  | Semester
deriving DecidableEq, Repr

/-- Status banner rendered by the warnings section (lines 122-127):
st.error / st.warning / st.success. -/
inductive Status where
  | Exceeded
  | NearLimit
  | OnTrack
deriving DecidableEq, Repr

/-- Expense mapping: ordered association list from category label to
amount, as built by the expense-input loop (lines 90-94). -/
abbrev ExpenseEntry := List (String × ℚ)

/-- Line 96: total_expenses = sum of the values of the expense mapping. -/
def computeTotal (expenses : ExpenseEntry) : ℚ :=
  (expenses.map Prod.snd).sum

/-- Line 97: remaining = budget - total_expenses. -/
def computeRemaining (budget total : ℚ) : ℚ :=
  budget - total

/-- Widget boundary (lines 53, 54, 70, 71, 93): st.number_input with
min_value=0 clamps every entered amount to a non-negative minimum. -/
def numberInput (v : ℚ) : ℚ :=
  max 0 v

/-- Lines 112 and 116: daily_budget = budget / 30 in Monthly mode,
monthly_equiv = budget / 6 in Semester mode. -/
def computeEquivalent (mode : Mode) (budget : ℚ) : ℚ :=
  match mode with
  | .Monthly => budget / 30
  | .Semester => budget / 6

/-- Lines 111-117: the time-scaled equivalent is shown in an st.info
line only when budget > 0; otherwise nothing is surfaced. -/
def surfacedEquivalent (mode : Mode) (budget : ℚ) : Option ℚ :=
  if budget > 0 then some (computeEquivalent mode budget) else none

/-- Lines 122-127: if remaining < 0 show the error banner, elif
remaining < budget * 0.2 show the warning banner, else the success
banner. The literal 0.2 is the exact rational 1/5. -/
def classifyStatus (remaining budget : ℚ) : Status :=
  if remaining < 0 then .Exceeded
  else if remaining < budget * (1/5) then .NearLimit
  else .OnTrack

/-- Lines 157-164: the fields of one saved history row. -/
structure HistoryRecord where
  date : String
  mode : Mode
  budget : ℚ
  expenses : ℚ
  remaining : ℚ
  goal : ℚ
deriving DecidableEq, Repr

/-- Current form state of one evaluation pass. -/
structure AppState where
  mode : Mode
  budget : ℚ
  goal : ℚ
  expenses : ExpenseEntry
deriving DecidableEq, Repr

/-- Lines 157-164: the dictionary appended on "Save this budget data",
built from the state at the time of the save. -/
def makeRecord (today : String) (s : AppState) : HistoryRecord :=
  { date := today
    mode := s.mode
    budget := s.budget
    expenses := computeTotal s.expenses
    remaining := s.budget - computeTotal s.expenses
    goal := s.goal }

/-- Lines 156-164: the save button appends one snapshot to the session
history list; nothing else is changed or removed. -/
def saveBudget (history : List HistoryRecord) (today : String)
    (s : AppState) : List HistoryRecord :=
  history ++ [makeRecord today s]

/-- Display label of a mode, as the radio widget stores it (line 46). -/
def modeLabel : Mode → String
  | .Monthly => "Monthly Budgeting"
  | .Semester => "Semester Budgeting"

/-- Decimal rendering of an amount for one CSV cell. -/
def ratField (q : ℚ) : String :=
  if q.den = 1 then toString q.num
  else toString q.num ++ "/" ++ toString q.den

/-- Header row of the exported table (lines 157-168 fix the columns). -/
def csvHeader : String :=
  "Date,Mode,Budget,Expenses,Remaining,Goal"

/-- One comma-separated data row per saved snapshot. -/
def recordRow (r : HistoryRecord) : String :=
  String.intercalate "," [r.date, modeLabel r.mode, ratField r.budget,
    ratField r.expenses, ratField r.remaining, ratField r.goal]

/-- Lines of the CSV: the header followed by one row per record, in
append order. -/
def csvLines (history : List HistoryRecord) : List String :=
  csvHeader :: history.map recordRow

/-- Line 171: history_df.to_csv(index=False) - the full CSV text. -/
def historyCsv (history : List HistoryRecord) : String :=
  String.intercalate "\n" (csvLines history) ++ "\n"

/-- Lines 166-172: the download button with filename expenses.csv is
offered only when the history log is non-empty. -/
def exportArtifact (history : List HistoryRecord) :
    Option (String × String) :=
  if history.length > 0 then some ("expenses.csv", historyCsv history)
  else none

/-- Outcome of the generative-model call: the advice text, or the
message of the exception the call raised. -/
abbrev AdviceResult := Except String String

/-- Lines 18-31: the prompt string formatted from the current state. -/
def buildPrompt (mode : Mode) (expenses : ExpenseEntry)
    (budget remaining goal : ℚ) : String :=
  "You are a financial advisor for COLLEGE STUDENTS. Mode: "
    ++ modeLabel mode
    ++ " Expenses breakdown: "
    ++ String.intercalate ", "
        (expenses.map (fun p => p.1 ++ " " ++ ratField p.2))
    ++ " Budget: " ++ ratField budget
    ++ " Remaining: " ++ ratField remaining
    ++ " Savings Goal: " ++ ratField goal
    ++ " Provide 6 personalized student-focused budgeting tips."

/-- Message raised when get_ai_tips runs with model = None: attribute
access on None fails before any request is made. -/
def noModelError : String :=
  "AttributeError: NoneType object has no attribute generate_content"

/-- Lines 11-15 and 17-33: when no GEMINI_API_KEY secret is configured
the model is None (apiKey = none) and calling it raises immediately;
otherwise the configured service is invoked with the formatted prompt.
The external service is a parameter from api key and prompt to an
outcome. -/
def get_ai_tips (apiKey : Option String)
    (generate : String → String → AdviceResult)
    (expenses : ExpenseEntry) (budget remaining goal : ℚ)
    (mode : Mode) : AdviceResult :=
  match apiKey with
  | none => Except.error noModelError
  | some key => generate key (buildPrompt mode expenses budget remaining goal)

/-- Elements the page renders, in order. -/
inductive Msg where
  | metric (label value : String)
  | info (text : String)
  | banner (s : Status)
  | pieChart (data : ExpenseEntry)
  | barChart (data : ExpenseEntry)
  | historyTable (rows : List HistoryRecord)
  | successMsg (text : String)
  | warningMsg (text : String)
  | errorMsg (text : String)
deriving DecidableEq, Repr

/-- Line 183: the fixed warning text shown when the advice call fails. -/
def adviceWarningText : String :=
  "Unable to fetch AI tips. Please check your Gemini API key."

/-- Lines 178-184: the try/except around the advice call. A successful
call shows the tips in a success element; a raised error is caught at
the call site and shown as the fixed warning plus the raw error detail. -/
def tipsSection (result : AdviceResult) : List Msg :=
  match result with
  | .ok tips => [.successMsg tips]
  | .error e => [.warningMsg adviceWarningText, .errorMsg e]

/-- The computed summary of one evaluation pass: the three metrics'
numbers, the surfaced equivalent, the status banner, and the inputs of
the two charts (lines 96-147). The pie chart is drawn only when
total_expenses > 0; the bar chart data is the expense rows plus a
synthetic Remaining row (line 146). -/
structure Summary where
  total : ℚ
  remaining : ℚ
  equivalent : Option ℚ
  status : Status
  pieInput : Option ExpenseEntry
  barInput : ExpenseEntry
deriving DecidableEq, Repr

/-- Lines 96-147: the full computed summary from the current state. -/
def computeSummary (s : AppState) : Summary :=
  let total := computeTotal s.expenses
  let remaining := computeRemaining s.budget total
  { total := total
    remaining := remaining
    equivalent := surfacedEquivalent s.mode s.budget
    status := classifyStatus remaining s.budget
    pieInput := if total > 0 then some s.expenses else none
    barInput := s.expenses ++ [("Remaining", remaining)] }

/-- Lines 102-172: everything the page renders before the AI-tips
section - summary metrics, optional equivalent line, status banner,
charts, and the history table when the log is non-empty. -/
def basePage (s : AppState) (history : List HistoryRecord) : List Msg :=
  let sm := computeSummary s
  [Msg.metric "Budget" (ratField s.budget),
   Msg.metric "Expenses" (ratField sm.total),
   Msg.metric "Remaining" (ratField sm.remaining)]
  ++ (match sm.equivalent with
      | some q => [Msg.info (ratField q)]
      | none => [])
  ++ [Msg.banner sm.status]
  ++ (match sm.pieInput with
      | some d => [Msg.pieChart d]
      | none => [])
  ++ [Msg.barChart sm.barInput]
  ++ (if history.length > 0 then [Msg.historyTable history] else [])

/-- The whole page: the base content followed by the tips section when
the Get AI Tips button was pressed (advice = some outcome). -/
def renderPage (s : AppState) (history : List HistoryRecord)
    (advice : Option AdviceResult) : List Msg :=
  basePage s history ++
    (match advice with
     | none => []
     | some r => tipsSection r)

/-- Concrete record used as an evaluation witness: the scenario row
Monthly, budget 5000, expenses 4000, remaining 1000, goal 1000. -/
def sampleRecord : HistoryRecord :=
  ⟨"2025-01-01", Mode.Monthly, 5000, 4000, 1000, 1000⟩

/-- C1: classifyStatus is Exceeded exactly when remaining < 0, NearLimit
exactly when 0 ≤ remaining < 0.2 × budget, OnTrack otherwise (the
0.2 × budget boundary is OnTrack because the comparison is strict); at
the listed inputs it gives Exceeded, NearLimit, OnTrack and OnTrack. -/
theorem classifyStatus_spec :
    (∀ remaining budget : ℚ,
      (classifyStatus remaining budget = Status.Exceeded ↔ remaining < 0) ∧
      (classifyStatus remaining budget = Status.NearLimit ↔
        0 ≤ remaining ∧ remaining < budget * (1/5)) ∧
      (classifyStatus remaining budget = Status.OnTrack ↔
        0 ≤ remaining ∧ budget * (1/5) ≤ remaining)) ∧
    classifyStatus (-1) 100 = Status.Exceeded ∧
    classifyStatus 19 100 = Status.NearLimit ∧
    classifyStatus 20 100 = Status.OnTrack ∧
    classifyStatus 0 0 = Status.OnTrack := by
  refine ⟨fun r b => ?_, by norm_num [classifyStatus],
    by norm_num [classifyStatus], by norm_num [classifyStatus],
    by norm_num [classifyStatus]⟩
  unfold classifyStatus
  split_ifs with h1 h2
  · refine ⟨by simp [h1], by simp; intro h; linarith, by simp; intro h; linarith⟩
  · push_neg at h1
    refine ⟨by simp; linarith, by simp; exact ⟨h1, by linarith⟩,
      by simp; intro h; linarith⟩
  · push_neg at h1 h2
    refine ⟨by simp; linarith, by simp; intro h; linarith,
      by simp; exact ⟨h1, by linarith⟩⟩

/-- C2: computeTotal of the empty mapping is 0, and computeTotal sums
all the values of the mapping: it satisfies the cons recurrence of the
values sum and equals the sum of the values list. -/
theorem computeTotal_spec :
    computeTotal ([] : ExpenseEntry) = 0 ∧
    (∀ (c : String) (a : ℚ) (E : ExpenseEntry),
      computeTotal ((c, a) :: E) = a + computeTotal E) ∧
    (∀ E : ExpenseEntry, computeTotal E = (E.map Prod.snd).sum) := by
  refine ⟨rfl, fun c a E => ?_, fun E => rfl⟩
  simp [computeTotal]

/-- C3: computeRemaining budget total equals budget - total, and when
the total exceeds the budget the result is an ordinary negative value,
not an error. -/
theorem computeRemaining_spec :
    (∀ b t : ℚ, computeRemaining b t = b - t) ∧
    (∀ b t : ℚ, b < t → computeRemaining b t < 0) := by
  refine ⟨fun b t => rfl, fun b t h => ?_⟩
  have hn : b - t < 0 := by linarith
  simpa [computeRemaining] using hn

/-- C3 witness: at budget 100 and total 150 the hypothesis 100 < 150
holds and the remaining value -50 is negative. -/
theorem computeRemaining_spec_witness :
    computeRemaining 100 150 = -50 ∧ computeRemaining 100 150 < 0 :=
  ⟨by norm_num [computeRemaining], computeRemaining_spec.2 100 150 (by norm_num)⟩

/-- C4: the equivalent is budget / 30 in Monthly mode and budget / 6 in
Semester mode, it is 0 at budget 0, it is surfaced to the display
exactly when budget > 0, and the two concrete figures are 100 and 1000. -/
theorem computeEquivalent_spec :
    (∀ b : ℚ, computeEquivalent Mode.Monthly b = b / 30) ∧
    (∀ b : ℚ, computeEquivalent Mode.Semester b = b / 6) ∧
    (∀ m : Mode, computeEquivalent m 0 = 0) ∧
    (∀ (m : Mode) (b : ℚ), (surfacedEquivalent m b).isSome ↔ 0 < b) ∧
    computeEquivalent Mode.Monthly 3000 = 100 ∧
    computeEquivalent Mode.Semester 6000 = 1000 ∧
    surfacedEquivalent Mode.Monthly 0 = none := by
  refine ⟨fun b => rfl, fun b => rfl, fun m => ?_, fun m b => ?_,
    by norm_num [computeEquivalent], by norm_num [computeEquivalent],
    by simp [surfacedEquivalent]⟩
  · cases m <;> simp [computeEquivalent]
  · unfold surfacedEquivalent
    split_ifs with h <;> simp [h]

/-- C5 counterexample: computeTotal does not fail on a mapping holding
a negative value; on the singleton mapping sending Food to -5 it
returns the sum -5 as an ordinary value, not an InvalidInput failure. -/
theorem computeTotal_negative_value :
    computeTotal [("Food", (-5 : ℚ))] = -5 := by
  norm_num [computeTotal]

/-- C5 amended: the calculator itself never fails - computeTotal is a
total function returning the sum of the values on every mapping, even
one with negative values - and negative amounts cannot reach it,
because the input widgets clamp every amount to a non-negative minimum,
making each clamped amount and the total of a clamped mapping
non-negative. -/
theorem calculator_total_on_clamped_input :
    (∀ v : ℚ, 0 ≤ numberInput v) ∧
    (∀ E : ExpenseEntry,
      0 ≤ computeTotal (E.map (fun p => (p.1, numberInput p.2)))) ∧
    (∀ E : ExpenseEntry, computeTotal E = (E.map Prod.snd).sum) := by
  refine ⟨fun v => le_max_left 0 v, fun E => ?_, fun E => rfl⟩
  induction E with
  | nil => simp [computeTotal]
  | cons p E ih =>
      have h1 : 0 ≤ numberInput p.2 := le_max_left 0 p.2
      show 0 ≤ numberInput p.2 +
        computeTotal (E.map (fun p => (p.1, numberInput p.2)))
      exact add_nonneg h1 ih

/-- C6: a saved record is an exact snapshot: its six fields equal the
state at save time, with Expenses the sum of the expense values and
Remaining equal to Budget - Expenses of the same record; a save only
appends (the old log is a prefix of the new one), and two saves in one
session yield the log extended by the two records in save order. -/
theorem history_snapshot_spec :
    (∀ (d : String) (s : AppState),
      (makeRecord d s).date = d ∧
      (makeRecord d s).mode = s.mode ∧
      (makeRecord d s).budget = s.budget ∧
      (makeRecord d s).expenses = computeTotal s.expenses ∧
      (makeRecord d s).remaining =
        (makeRecord d s).budget - (makeRecord d s).expenses ∧
      (makeRecord d s).goal = s.goal) ∧
    (∀ (h : List HistoryRecord) (d : String) (s : AppState),
      h <+: saveBudget h d s) ∧
    (∀ (h : List HistoryRecord) (d1 d2 : String) (s1 s2 : AppState),
      saveBudget (saveBudget h d1 s1) d2 s2 =
        h ++ [makeRecord d1 s1, makeRecord d2 s2] ∧
      (saveBudget (saveBudget h d1 s1) d2 s2).length = h.length + 2) := by
  refine ⟨fun d s => ⟨rfl, rfl, rfl, rfl, rfl, rfl⟩,
    fun h d s => ⟨[makeRecord d s], rfl⟩,
    fun h d1 d2 s1 s2 => ⟨?_, ?_⟩⟩
  · simp [saveBudget]
  · simp [saveBudget]

/-- C7: the export is offered exactly when the log is non-empty, the
artifact is named expenses.csv and holds the CSV text, and the CSV is
the fixed six-column header row followed by one comma-separated row per
snapshot in append order, so its line count is one more than the number
of snapshots. -/
theorem export_spec :
    (∀ h : List HistoryRecord, exportArtifact h = none ↔ h = []) ∧
    (∀ h : List HistoryRecord, h ≠ [] →
      exportArtifact h = some ("expenses.csv", historyCsv h)) ∧
    (∀ h : List HistoryRecord, csvLines h = csvHeader :: h.map recordRow) ∧
    csvHeader = "Date,Mode,Budget,Expenses,Remaining,Goal" ∧
    (∀ h : List HistoryRecord, (csvLines h).length = h.length + 1) := by
  refine ⟨fun h => ?_, fun h hne => ?_, fun h => rfl, rfl,
    fun h => by simp [csvLines]⟩
  · cases h with
    | nil => simp [exportArtifact]
    | cons a t => simp [exportArtifact]
  · have hl : h.length > 0 := List.length_pos.mpr hne
    simp [exportArtifact, hl]

/-- C7 witness: with a one-record log the export is offered, named
expenses.csv, holding the serialized table. -/
theorem export_spec_witness :
    exportArtifact [sampleRecord] =
      some ("expenses.csv", historyCsv [sampleRecord]) :=
  export_spec.2.1 [sampleRecord] (by simp)

/-- C8: when the advice call raises, the rendered page is exactly the
unchanged base content (summary metrics, equivalent line, status
banner, charts and history table) followed by the fixed warning and the
raw error detail; the base content does not depend on the advice
outcome at all. -/
theorem advice_failure_spec :
    (∀ (s : AppState) (h : List HistoryRecord) (e : String),
      renderPage s h (some (Except.error e)) =
        basePage s h ++
          [Msg.warningMsg adviceWarningText, Msg.errorMsg e]) ∧
    (∀ (s : AppState) (h : List HistoryRecord)
      (o1 o2 : Option AdviceResult),
      (renderPage s h o1).take (basePage s h).length =
        (renderPage s h o2).take (basePage s h).length) := by
  refine ⟨fun s h e => rfl, fun s h o1 o2 => ?_⟩
  simp [renderPage, List.take_left]

/-- C9: with no configured credential the advice feature fails fast
with the attribute error, and its outcome does not depend on the
external service in any way - no outbound call is attempted. -/
theorem advice_no_credential_spec :
    ∀ (g g2 : String → String → AdviceResult) (E : ExpenseEntry)
      (budget remaining goal : ℚ) (mode : Mode),
      get_ai_tips none g E budget remaining goal mode =
        Except.error noModelError ∧
      get_ai_tips none g E budget remaining goal mode =
        get_ai_tips none g2 E budget remaining goal mode :=
  fun _ _ _ _ _ _ _ => ⟨rfl, rfl⟩

/-- C10: the savings goal does not influence the computed summary or
the rendered base page: two evaluations equal in mode, budget and
expenses but different in goal give identical total, remaining,
equivalent, status and chart inputs, while the goal does reach the
saved history record. -/
theorem goal_noninterference :
    ∀ (m : Mode) (b : ℚ) (E : ExpenseEntry) (g1 g2 : ℚ)
      (h : List HistoryRecord) (d : String),
      computeSummary ⟨m, b, g1, E⟩ = computeSummary ⟨m, b, g2, E⟩ ∧
      basePage ⟨m, b, g1, E⟩ h = basePage ⟨m, b, g2, E⟩ h ∧
      (makeRecord d ⟨m, b, g1, E⟩).goal = g1 :=
  fun _ _ _ _ _ _ _ => ⟨rfl, rfl, rfl⟩

end BudgetApp
